import Mathlib

set_option maxRecDepth 4000

/-!
Verification development for the DICOMDoseExtractor repository.

The repository's extraction engine (DICOMDoseExtractor.py, DICOMMamographyExtractor.py,
DICOMDoseExcel.py) walks decoded DICOM SR content trees. We shallowly embed the
claim-relevant functions here:

* A `ContentNode` models one pydicom content item: its `ConceptNameCodeSequence`,
  `ConceptCodeSequence`, `TextValue`, `UID`, `DateTime`, `MeasuredValueSequence` and
  `ContentSequence` attributes. `Option` fields model attribute absence
  (`getattr` defaults); sequence attributes are modeled as lists, an absent
  sequence attribute behaving like the empty list wherever the code only tests
  `hasattr(x, S) and x.S` (the code never distinguishes the two for those
  attributes). `ContentSequence` is `Option (List ContentNode)` because the code
  tests bare `hasattr`.
* Numeric payloads: pydicom stores `NumericValue` as a decimal string converted
  to a float-like object. We keep the raw decimal string (`Option String`) and
  model `float(...)` as exact-rational parsing (`pyFloat`); Python truthiness of
  the numeric object is `value ≠ 0`, and a string pydicom cannot convert raises,
  which each extractor's `except` turns into its missing result. Machine floats
  are modeled as exact rationals; `inf`/`nan` spellings are out of model.
* Exceptions are modeled by `Option`/explicit fallback values: every
  `try/except` in the source has its handler's value inlined at the point the
  exception would arise.
-/

/-- One entry of a code sequence (pydicom code item): `CodeValue` and
`CodeMeaning`, each defaulting to `''` when the attribute is absent, exactly as
`getattr(item, 'CodeValue', '')` does. -/
structure Code where
  codeValue : String
  codeMeaning : String
deriving DecidableEq, Repr

/-- One entry of `MeasuredValueSequence`: the `NumericValue` attribute (absent
or a raw decimal string) and the `MeasurementUnitsCodeSequence`. -/
structure MeasuredValue where
  numericValue : Option String
  units : List Code
deriving DecidableEq, Repr

/-- A decoded SR content item (pydicom `Dataset` inside a `ContentSequence`). -/
inductive ContentNode : Type where
  | mk
    (conceptNameCodes : List Code)
    (conceptCodes : List Code)
    (textValue : Option String)
    (uid : Option String)
    (dateTime : Option String)
    (measuredValues : List MeasuredValue)
    (children : Option (List ContentNode))

def ContentNode.conceptNameCodes : ContentNode → List Code
  | .mk a _ _ _ _ _ _ => a

def ContentNode.conceptCodes : ContentNode → List Code
  | .mk _ a _ _ _ _ _ => a

def ContentNode.textValue : ContentNode → Option String
  | .mk _ _ a _ _ _ _ => a

def ContentNode.uid : ContentNode → Option String
  | .mk _ _ _ a _ _ _ => a

def ContentNode.dateTime : ContentNode → Option String
  | .mk _ _ _ _ a _ _ => a

def ContentNode.measuredValues : ContentNode → List MeasuredValue
  | .mk _ _ _ _ _ a _ => a

def ContentNode.children : ContentNode → Option (List ContentNode)
  | .mk _ _ _ _ _ _ a => a

/-! ### Python string primitives -/

/-- Characters stripped by Python's `str.strip()` and matched by `\s`. -/
def pySpace (c : Char) : Bool :=
  c = ' ' || c = '\t' || c = '\n' || c = '\r' || c = '\x0b' || c = '\x0c'

def pyStripList (cs : List Char) : List Char :=
  ((cs.dropWhile pySpace).reverse.dropWhile pySpace).reverse

/-- Python `str.strip()`. -/
def pyStrip (s : String) : String := String.mk (pyStripList s.toList)

def digitVal (c : Char) : ℕ := c.toNat - 48

def digitsVal (cs : List Char) : ℕ :=
  cs.foldl (fun a c => a * 10 + digitVal c) 0

/-- Python `float(s)` on decimal strings, as an exact rational: optional
whitespace, sign, digits with optional fractional part, optional decimal
exponent. Returns `none` where `float(...)` raises `ValueError`. The value
`±(ip.fp) · 10^(±ed)` is assembled with `mkRat` over the integer
`ip·10^|fp| + fp` so that it evaluates inside the kernel (the abstract `ℚ`
operations are irreducible). -/
def pyFloat (s : String) : Option ℚ :=
  let cs := pyStripList s.toList
  let neg : Bool := cs.headD ' ' = '-'
  let cs := match cs with
    | '-' :: r => r
    | '+' :: r => r
    | r => r
  let ip := cs.takeWhile Char.isDigit
  let cs := cs.dropWhile Char.isDigit
  let fp := match cs with
    | '.' :: r => r.takeWhile Char.isDigit
    | _ => []
  let cs := match cs with
    | '.' :: r => r.dropWhile Char.isDigit
    | r => r
  if ip.isEmpty && fp.isEmpty then none
  else
    let mantNat : ℕ := digitsVal ip * 10 ^ fp.length + digitsVal fp
    let mant : ℤ := if neg then -(mantNat : ℤ) else (mantNat : ℤ)
    match cs with
    | [] => some (mkRat mant (10 ^ fp.length))
    | e :: r =>
      if e = 'e' || e = 'E' then
        let epos : Bool := r.headD ' ' ≠ '-'
        let r := match r with
          | '-' :: r2 => r2
          | '+' :: r2 => r2
          | r2 => r2
        let ed := r.takeWhile Char.isDigit
        let rest := r.dropWhile Char.isDigit
        if ed.isEmpty || !rest.isEmpty then none
        else if epos then some (mkRat (mant * 10 ^ digitsVal ed) (10 ^ fp.length))
        else some (mkRat mant (10 ^ (fp.length + digitsVal ed)))
      else none

/-- Python `int(s)`: optional whitespace, sign, then decimal digits. -/
def pyInt (s : String) : Option ℤ :=
  let cs := pyStripList s.toList
  match cs with
  | '-' :: rest =>
    if !rest.isEmpty && rest.all Char.isDigit then some (-(digitsVal rest : ℤ)) else none
  | '+' :: rest =>
    if !rest.isEmpty && rest.all Char.isDigit then some (digitsVal rest : ℤ) else none
  | rest =>
    if !rest.isEmpty && rest.all Char.isDigit then some (digitsVal rest : ℤ) else none

/-- Python list indexing `l[i]` with negative-index wraparound; `none` models
`IndexError`. -/
def listIndexPy (l : List String) (i : ℤ) : Option String :=
  if 0 ≤ i then l.get? i.toNat
  else if 0 ≤ i + l.length then l.get? (i + l.length).toNat
  else none

/-! ### Code locator (`find_content_by_code`, identical in both extractors) -/

/-- Loop-body condition of `find_content_by_code`:
`hasattr(item, 'ConceptNameCodeSequence') and item.ConceptNameCodeSequence`
followed by `getattr(...[0], 'CodeValue', '') == code_value`. -/
def nodeMatches (it : ContentNode) (code : String) : Bool :=
  match it.conceptNameCodes with
  | [] => false
  | c :: _ => c.codeValue == code

/-- `find_content_by_code(content_sequence, code_value)`: first child whose
concept name code equals the target; `None` when no child matches. -/
def find_content_by_code : List ContentNode → String → Option ContentNode
  | [], _ => none
  | it :: rest, code =>
    if nodeMatches it code then some it else find_content_by_code rest code

/-! ### Typed value extractors -/

/-- `get_text_value(content_item)`: `getattr(content_item, 'TextValue', '')`. -/
def get_text_value (it : ContentNode) : String :=
  it.textValue.getD ""

/-- `get_code_meaning(content_item)`: meaning of the first entry of
`ConceptCodeSequence`, or `''`. -/
def get_code_meaning (it : ContentNode) : String :=
  match it.conceptCodes with
  | [] => ""
  | c :: _ => c.codeMeaning

/-- Unit lookup inside `get_numeric_value_with_unit`: `CodeMeaning` of the first
entry of `MeasurementUnitsCodeSequence`, or `''`. -/
def unitOf (mv : MeasuredValue) : String :=
  match mv.units with
  | [] => ""
  | u :: _ => u.codeMeaning

/-- `get_numeric_value_with_unit(content_item)`: `"value unit"` when the numeric
value is truthy and a unit meaning is present, the bare value when only the
numeric value is truthy, and `''` otherwise (absent sequence, absent attribute,
zero value, or a conversion error swallowed by the `except`). -/
def get_numeric_value_with_unit (it : ContentNode) : String :=
  match it.measuredValues with
  | [] => ""
  | mv :: _ =>
    match mv.numericValue with
    | none => ""
    | some s =>
      match pyFloat s with
      | none => ""
      | some q =>
        if q = 0 then ""
        else if unitOf mv = "" then s else s ++ " " ++ unitOf mv

/-- `get_numeric_value_only(content_item)` (DICOMMamographyExtractor):
`str(numeric_value) if numeric_value else ""`. -/
def get_numeric_value_only (it : ContentNode) : String :=
  match it.measuredValues with
  | [] => ""
  | mv :: _ =>
    match mv.numericValue with
    | none => ""
    | some s =>
      match pyFloat s with
      | none => ""
      | some q => if q = 0 then "" else s

/-- `get_numeric_value_as_float(content_item)` (DICOMMamographyExtractor):
`float(numeric_value)` when truthy, else `None`. -/
def get_numeric_value_as_float (it : ContentNode) : Option ℚ :=
  match it.measuredValues with
  | [] => none
  | mv :: _ =>
    match mv.numericValue with
    | none => none
    | some s =>
      match pyFloat s with
      | none => none
      | some q => if q = 0 then none else some q

/-! ### Measurement aggregator (`aggregate_multiple_values`) -/

/-- Round half to even. With `f = ⌊q⌋` and `t = 2·den·(q − f)`, the fractional
part of `q` is below, above or exactly one half according as `t < den`,
`t > den` or `t = den`; ties go to the even neighbour. Stated on the integer
numerator/denominator so it evaluates inside the kernel. -/
def roundHalfEven (q : ℚ) : ℤ :=
  let f := ⌊q⌋
  let t := 2 * (q.num - f * (q.den : ℤ))
  if t < (q.den : ℤ) then f
  else if (q.den : ℤ) < t then f + 1
  else if f % 2 = 0 then f else f + 1

/-- Python `round(x, 3)` (round half to even at the third decimal):
`roundHalfEven (q * 1000) / 1000`, written with `mkRat` so it evaluates;
`pyRound3_eq` below states it in the standard field operations. -/
def pyRound3 (q : ℚ) : ℚ :=
  mkRat (roundHalfEven (mkRat (q.num * 1000) q.den)) 1000

/-- Result dictionary of `aggregate_multiple_values`. -/
structure AggResult where
  min : Option ℚ
  max : Option ℚ
  avg : Option ℚ
  count : ℕ
deriving DecidableEq, Repr

/-- Body of the aggregator's per-item step after the code match: take
`get_numeric_value_only`, skip empty, `float(...)` with the parse failure
swallowed. -/
def parsedSample (it : ContentNode) : Option ℚ :=
  let v := get_numeric_value_only it
  if v = "" then none else pyFloat v

/-- The `values` list built by `aggregate_multiple_values`' loop, in encounter
order. -/
def collectValues : List ContentNode → String → List ℚ
  | [], _ => []
  | it :: rest, code =>
    if nodeMatches it code then
      match parsedSample it with
      | some q => q :: collectValues rest code
      | none => collectValues rest code
    else collectValues rest code

/-- Python `min` over a nonempty list (left fold from the first element). -/
def listMin (x : ℚ) (r : List ℚ) : ℚ := r.foldl min x

/-- Python `max` over a nonempty list. -/
def listMax (x : ℚ) (r : List ℚ) : ℚ := r.foldl max x

/-- Rational addition written on numerators/denominators with `mkRat` so it
evaluates inside the kernel; `ratAddR_eq` below proves it is `+`. -/
def ratAddR (a b : ℚ) : ℚ :=
  mkRat (a.num * b.den + b.num * a.den) (a.den * b.den)

/-- Python `sum` (left fold of `+` from 0); `listSum_eq` below restates it with
the standard `+`. -/
def listSum (l : List ℚ) : ℚ := l.foldl ratAddR 0

/-- Division of a rational by a natural number, written with `mkRat` so it
evaluates inside the kernel; `ratDivNat_eq` below proves it is `/`. -/
def ratDivNat (q : ℚ) (n : ℕ) : ℚ := mkRat q.num (q.den * n)

/-- `aggregate_multiple_values(content_sequence, code_value)` (DICOMMamographyExtractor). -/
def aggregate_multiple_values (cs : List ContentNode) (code : String) : AggResult :=
  match collectValues cs code with
  | [] => ⟨none, none, none, 0⟩
  | x :: r =>
    ⟨some (pyRound3 (listMin x r)),
     some (pyRound3 (listMax x r)),
     some (pyRound3 (ratDivNat (listSum (x :: r)) (x :: r).length)),
     (x :: r).length⟩

/-- Specification-side view of the collected samples: every matching item's
numeric payload (which coincides with `get_numeric_value_as_float`). -/
def matchingSamples (cs : List ContentNode) (code : String) : List ℚ :=
  cs.filterMap (fun it => if nodeMatches it code then get_numeric_value_as_float it else none)

/-! ### Date normalizer -/

def dateSliceYear (s : String) : String := String.mk (s.toList.take 4)

def dateSliceMonth (s : String) : String := String.mk ((s.toList.drop 4).take 2)

def dateSliceDay (s : String) : String := String.mk ((s.toList.drop 6).take 2)

/-- The `months` table inside `format_date` (index 0 is the empty placeholder). -/
def monthsTable : List String :=
  ["", "Jan", "Feb", "Mar", "Apr", "May", "Jun",
   "Jul", "Aug", "Sep", "Oct", "Nov", "Dec"]

/-- `format_date(date_str)` (identical in DICOMDoseExtractor and
DICOMMamographyExtractor): `''` for empty/short input; otherwise
`f"{months[int(month)]} {int(day)}, {year}"`, falling back to the unchanged
input when `int(...)` raises `ValueError` or the table index raises
`IndexError`. -/
def format_date (s : String) : String :=
  if s = "" ∨ s.length < 8 then ""
  else
    match pyInt (dateSliceMonth s) with
    | none => s
    | some m =>
      match listIndexPy monthsTable m with
      | none => s
      | some monthName =>
        match pyInt (dateSliceDay s) with
        | none => s
        | some d => monthName ++ " " ++ toString d ++ ", " ++ dateSliceYear s

/-- `format_datetime(dt_str)` (DICOMDoseExtractor): `YYYY-MM-DD[ HH:MM:SS]` from
the fixed-width prefix before any `'.'`; inputs shorter than 8 characters are
returned unchanged (slicing raises nothing, so the `except` is dead). -/
def format_datetime (s : String) : String :=
  if s = "" then ""
  else
    -- `dt_str.split('.')[0]` (or the whole string when it has no `'.'`):
    -- the prefix before the first dot.
    let cs := s.toList.takeWhile (fun c => c ≠ '.')
    if 8 ≤ cs.length then
      let year := String.mk (cs.take 4)
      let month := String.mk ((cs.drop 4).take 2)
      let day := String.mk ((cs.drop 6).take 2)
      if 14 ≤ cs.length then
        year ++ "-" ++ month ++ "-" ++ day ++ " " ++
          String.mk ((cs.drop 8).take 2) ++ ":" ++
          String.mk ((cs.drop 10).take 2) ++ ":" ++
          String.mk ((cs.drop 12).take 2)
      else year ++ "-" ++ month ++ "-" ++ day
    else s

/-- `get_datetime_value(content_item)`: `format_datetime(getattr(item, 'DateTime', ''))`. -/
def get_datetime_value (it : ContentNode) : String :=
  format_datetime (it.dateTime.getD "")

/-! ### `datetime.strptime` for the accepted display formats

The age calculators call `datetime.strptime` against fixed format lists.
CPython compiles each format to a regex (whitespace in the format becomes
`\s+`, `%b`/`%B` become case-insensitive month-name alternations, the numeric
directives become the bounded digit patterns below) and requires a full match,
then validates the result through the `datetime` constructor. We mirror that
with a backtracking token matcher. -/

structure Parts where
  year : ℕ := 1900
  month : ℕ := 1
  day : ℕ := 1
  hour : ℕ := 0
  minute : ℕ := 0
  second : ℕ := 0
  pm : Option Bool := none
deriving DecidableEq, Repr

/-- A parsed calendar date (the only strptime output the age logic uses). -/
structure PDate where
  year : ℕ
  month : ℕ
  day : ℕ
deriving DecidableEq, Repr

/-- Tokens of a compiled strptime format string. -/
inductive Tok : Type where
  | lit (c : Char)
  | ws
  | mabbr
  | mfull
  | d2
  | m2
  | y4
  | i12
  | mi
  | sec
  | ampm
deriving DecidableEq, Repr

def monthAbbrevs : List String :=
  ["Jan", "Feb", "Mar", "Apr", "May", "Jun", "Jul", "Aug", "Sep", "Oct", "Nov", "Dec"]

def monthFulls : List String :=
  ["January", "February", "March", "April", "May", "June", "July", "August",
   "September", "October", "November", "December"]

/-- Case-insensitive literal prefix match (strptime compiles month names with
`re.IGNORECASE`). -/
def stripPrefixCI : List Char → List Char → Option (List Char)
  | [], cs => some cs
  | _ :: _, [] => none
  | p :: ps, c :: cs => if c.toLower = p.toLower then stripPrefixCI ps cs else none

def monthNameCandidates (names : List String) (cs : List Char) : List (ℕ × List Char) :=
  names.enum.filterMap (fun pr =>
    (stripPrefixCI pr.2.toList cs).map (fun rest => (pr.1 + 1, rest)))

/-- `%d` pattern `(3[01]|[12]\d|0[1-9]|[1-9])`: the two-digit alternatives
cover exactly 01–31, then the single-digit 1–9 fallback. -/
def dayCandidates : List Char → List (ℕ × List Char)
  | a :: b :: rest =>
    (if a.isDigit && b.isDigit && decide (1 ≤ digitVal a * 10 + digitVal b) &&
        decide (digitVal a * 10 + digitVal b ≤ 31) then
      [(digitVal a * 10 + digitVal b, rest)]
    else []) ++
    (if a.isDigit && decide (1 ≤ digitVal a) then [(digitVal a, b :: rest)] else [])
  | [a] => if a.isDigit && decide (1 ≤ digitVal a) then [(digitVal a, [])] else []
  | [] => []

/-- `%m` and `%I` pattern `(1[0-2]|0[1-9]|[1-9])`: two-digit 01–12, then
single-digit 1–9. -/
def month12Candidates : List Char → List (ℕ × List Char)
  | a :: b :: rest =>
    (if a.isDigit && b.isDigit && decide (1 ≤ digitVal a * 10 + digitVal b) &&
        decide (digitVal a * 10 + digitVal b ≤ 12) then
      [(digitVal a * 10 + digitVal b, rest)]
    else []) ++
    (if a.isDigit && decide (1 ≤ digitVal a) then [(digitVal a, b :: rest)] else [])
  | [a] => if a.isDigit && decide (1 ≤ digitVal a) then [(digitVal a, [])] else []
  | [] => []

/-- `%M` pattern `([0-5]\d|\d)`. -/
def minuteCandidates : List Char → List (ℕ × List Char)
  | a :: b :: rest =>
    (if a.isDigit && b.isDigit && decide (digitVal a ≤ 5) then
      [(digitVal a * 10 + digitVal b, rest)]
    else []) ++
    (if a.isDigit then [(digitVal a, b :: rest)] else [])
  | [a] => if a.isDigit then [(digitVal a, [])] else []
  | [] => []

/-- `%S` pattern `(6[0-1]|[0-5]\d|\d)`. -/
def secondCandidates : List Char → List (ℕ × List Char)
  | a :: b :: rest =>
    (if a.isDigit && b.isDigit &&
        (decide (digitVal a ≤ 5) || (a = '6' && decide (digitVal b ≤ 1))) then
      [(digitVal a * 10 + digitVal b, rest)]
    else []) ++
    (if a.isDigit then [(digitVal a, b :: rest)] else [])
  | [a] => if a.isDigit then [(digitVal a, [])] else []
  | [] => []

/-- `%Y` pattern: exactly four digits. -/
def year4Candidates : List Char → List (ℕ × List Char)
  | a :: b :: c :: d :: rest =>
    if a.isDigit && b.isDigit && c.isDigit && d.isDigit then
      [(digitsVal [a, b, c, d], rest)]
    else []
  | _ => []

def matchTok (t : Tok) (cs : List Char) (p : Parts) : List (List Char × Parts) :=
  match t with
  | .lit c =>
    match cs with
    | x :: rest => if x = c then [(rest, p)] else []
    | [] => []
  | .ws =>
    let rest := cs.dropWhile pySpace
    if rest.length < cs.length then [(rest, p)] else []
  | .mabbr => (monthNameCandidates monthAbbrevs cs).map (fun pr => (pr.2, { p with month := pr.1 }))
  | .mfull => (monthNameCandidates monthFulls cs).map (fun pr => (pr.2, { p with month := pr.1 }))
  | .d2 => (dayCandidates cs).map (fun pr => (pr.2, { p with day := pr.1 }))
  | .m2 => (month12Candidates cs).map (fun pr => (pr.2, { p with month := pr.1 }))
  | .y4 => (year4Candidates cs).map (fun pr => (pr.2, { p with year := pr.1 }))
  | .i12 => (month12Candidates cs).map (fun pr => (pr.2, { p with hour := pr.1 }))
  | .mi => (minuteCandidates cs).map (fun pr => (pr.2, { p with minute := pr.1 }))
  | .sec => (secondCandidates cs).map (fun pr => (pr.2, { p with second := pr.1 }))
  | .ampm =>
    (match stripPrefixCI "AM".toList cs with
     | some rest => [(rest, { p with pm := some false })]
     | none => []) ++
    (match stripPrefixCI "PM".toList cs with
     | some rest => [(rest, { p with pm := some true })]
     | none => [])

def matchToks : List Tok → List Char → Parts → List (List Char × Parts)
  | [], cs, p => [(cs, p)]
  | t :: ts, cs, p => (matchTok t cs p).flatMap (fun pr => matchToks ts pr.1 pr.2)

/-- Full-match requirement of `strptime`: the compiled regex must consume the
whole (already stripped) string. -/
def runFormat (toks : List Tok) (s : String) : Option Parts :=
  match (matchToks toks s.toList {}).filter (fun pr => pr.1.isEmpty) with
  | [] => none
  | pr :: _ => some pr.2

def isLeap (y : ℕ) : Bool := y % 4 = 0 && (y % 100 ≠ 0 || y % 400 = 0)

def daysInMonth (y m : ℕ) : ℕ :=
  if m = 2 then (if isLeap y then 29 else 28)
  else if m = 4 ∨ m = 6 ∨ m = 9 ∨ m = 11 then 30
  else 31

/-- Validation done by the `datetime` constructor after the regex match:
`MINYEAR ≤ year`, the day must exist in the month, and `datetime` rejects the
leap seconds the `%S` pattern admits. -/
def finishParse (p : Parts) : Option PDate :=
  if 1 ≤ p.year ∧ p.day ≤ daysInMonth p.year p.month ∧ p.second ≤ 59 then
    some ⟨p.year, p.month, p.day⟩
  else none

/-- `datetime.strptime(s, fmt)` restricted to its date output; `none` models
`ValueError`. -/
def strptimeDate (f : List Tok) (s : String) : Option PDate :=
  (runFormat f s).bind finishParse

/-- `'%b %d, %Y'` -/
def fmtBdY : List Tok := [.mabbr, .ws, .d2, .lit ',', .ws, .y4]

/-- `'%B %d, %Y'` -/
def fmtBfdY : List Tok := [.mfull, .ws, .d2, .lit ',', .ws, .y4]

/-- `'%Y-%m-%d'` -/
def fmtYmd : List Tok := [.y4, .lit '-', .m2, .lit '-', .d2]

/-- `'%d/%m/%Y'` -/
def fmtDmY : List Tok := [.d2, .lit '/', .m2, .lit '/', .y4]

/-- `'%m/%d/%Y'` -/
def fmtMdY : List Tok := [.m2, .lit '/', .d2, .lit '/', .y4]

/-- `'%b %d, %Y, %I:%M:%S %p'` -/
def fmtBdYT : List Tok :=
  [.mabbr, .ws, .d2, .lit ',', .ws, .y4, .lit ',', .ws, .i12, .lit ':', .mi, .lit ':', .sec, .ws, .ampm]

/-- `'%B %d, %Y, %I:%M:%S %p'` -/
def fmtBfdYT : List Tok :=
  [.mfull, .ws, .d2, .lit ',', .ws, .y4, .lit ',', .ws, .i12, .lit ':', .mi, .lit ':', .sec, .ws, .ampm]

/-- Birth-date format list (`date_formats` / `birth_formats`, identical in both
age calculators). -/
def dateFormats : List (List Tok) := [fmtBdY, fmtBfdY, fmtYmd, fmtDmY, fmtMdY]

/-- `exam_formats` of DICOMMamographyExtractor (`date_formats` plus the two
date-with-time formats). -/
def examFormats : List (List Tok) := dateFormats ++ [fmtBdYT, fmtBfdYT]

/-- `exam_formats` of DICOMDoseExcel (date-with-time formats first). -/
def examFormatsExcel : List (List Tok) :=
  [fmtBdYT, fmtBfdYT, fmtBdY, fmtBfdY, fmtYmd, fmtDmY, fmtMdY]

/-- The per-string format loop: first format that parses wins. -/
def firstParse : List (List Tok) → String → Option PDate
  | [], _ => none
  | f :: fs, s =>
    match strptimeDate f s with
    | some d => some d
    | none => firstParse fs s

/-- `re.search(r'(\d{4})', s)`: leftmost position where four consecutive digits
start. -/
def extractYear4Aux : List Char → Option ℕ
  | a :: b :: c :: d :: rest =>
    if a.isDigit && b.isDigit && c.isDigit && d.isDigit then
      some (digitsVal [a, b, c, d])
    else extractYear4Aux (b :: c :: d :: rest)
  | _ => none

def extractYear4 (s : String) : Option ℕ := extractYear4Aux s.toList

/-! ### Age calculators -/

/-- Result of an age calculator; `unknown` is the `'-'` marker. -/
inductive AgeResult : Type where
  | age (n : ℤ)
  | unknown
deriving DecidableEq, Repr

/-- Python tuple comparison `(a, b) < (c, d)` (lexicographic). -/
def pairLt (a b : ℕ × ℕ) : Bool :=
  a.1 < b.1 || (a.1 = b.1 && a.2 < b.2)

/-- `age = exam.year - birth.year`, minus one when the exam's (month, day)
precedes the birth's. -/
def ageOf (bd ed : PDate) : ℤ :=
  ((ed.year : ℤ) - bd.year) - (if pairLt (ed.month, ed.day) (bd.month, bd.day) then 1 else 0)

/-- Birth-date resolution of `calculate_age` (DICOMMamographyExtractor): the
format loop, then the bare-year fallback `datetime(year, 1, 1)`. The outer
`none` models the `ValueError` that `datetime` raises for year `0000`, which
the enclosing `except` turns into `'-'`. -/
def resolveBirth (b : String) : Option (Option PDate) :=
  match firstParse dateFormats (pyStrip b) with
  | some d => some (some d)
  | none =>
    match extractYear4 b with
    | none => some none
    | some y => if y = 0 then none else some (some ⟨y, 1, 1⟩)

/-- Exam-date resolution of `calculate_age` (DICOMMamographyExtractor): the
format loop, then the bare-year fallback `datetime(year, 6, 15)`. -/
def resolveExam (e : String) : Option (Option PDate) :=
  match firstParse examFormats (pyStrip e) with
  | some d => some (some d)
  | none =>
    match extractYear4 e with
    | none => some none
    | some y => if y = 0 then none else some (some ⟨y, 6, 15⟩)

/-- `calculate_age(birth_date_str, exam_date_str)` (DICOMMamographyExtractor). -/
def calculate_age (b e : String) : AgeResult :=
  if b = "" then AgeResult.unknown
  else if e = "" then AgeResult.unknown
  else
    match resolveBirth b with
    | none => AgeResult.unknown
    | some ob =>
      match resolveExam e with
      | none => AgeResult.unknown
      | some oe =>
        match ob, oe with
        | some bd, some ed => AgeResult.age (ageOf bd ed)
        | _, _ => AgeResult.unknown

/-- The `except` branch of DICOMDoseExcel's `calculate_age`: plain year
difference from the two `re.search` year extractions. -/
def excelYearFallback (b e : String) : AgeResult :=
  match extractYear4 b, extractYear4 e with
  | some yb, some ye => AgeResult.age ((ye : ℤ) - yb)
  | _, _ => AgeResult.unknown

/-- Exam-date stage of DICOMDoseExcel's `calculate_age`, entered once a birth
date exists: formats (time variants first), then the year fallback whose
`datetime(year, 6, 15)` can raise into `excelYearFallback` for year `0000`. -/
def excelExamStage (bd : PDate) (b e : String) : AgeResult :=
  match firstParse examFormatsExcel (pyStrip e) with
  | some ed => AgeResult.age (ageOf bd ed)
  | none =>
    match extractYear4 e with
    | none => AgeResult.unknown
    | some y => if y = 0 then excelYearFallback b e else AgeResult.age (ageOf bd ⟨y, 6, 15⟩)

/-- `calculate_age(birth_date_str, exam_date_str)` (DICOMDoseExcel). The source
returns `str(age)`; we keep the integer it denotes. `datetime(year, 1, 1)` for
a `0000` birth year raises into the year-difference `except` branch. -/
def calculate_age_excel (b e : String) : AgeResult :=
  if b = "" then AgeResult.unknown
  else if e = "" then AgeResult.unknown
  else
    match firstParse dateFormats (pyStrip b) with
    | some bd => excelExamStage bd b e
    | none =>
      match extractYear4 b with
      | none => AgeResult.unknown
      | some y => if y = 0 then excelYearFallback b e else excelExamStage ⟨y, 1, 1⟩ b e

/-- The date a birth string resolves to on the calculators' success paths:
either the string parses against the accepted formats, or format parsing fails
and the first 4-digit year (a nonzero, hence constructible, calendar year)
gives the January-1 fallback. -/
def birthResolvesTo (b : String) (bd : PDate) : Prop :=
  firstParse dateFormats (pyStrip b) = some bd ∨
    (firstParse dateFormats (pyStrip b) = none ∧
      ∃ y, extractYear4 b = some y ∧ y ≠ 0 ∧ bd = ⟨y, 1, 1⟩)

/-- The date an exam string resolves to (DICOMMamographyExtractor format list):
parsed, or the June-15 fallback on the extracted nonzero year. -/
def examResolvesTo (e : String) (ed : PDate) : Prop :=
  firstParse examFormats (pyStrip e) = some ed ∨
    (firstParse examFormats (pyStrip e) = none ∧
      ∃ y, extractYear4 e = some y ∧ y ≠ 0 ∧ ed = ⟨y, 6, 15⟩)

/-- The date an exam string resolves to (DICOMDoseExcel format list). -/
def examResolvesToExcel (e : String) (ed : PDate) : Prop :=
  firstParse examFormatsExcel (pyStrip e) = some ed ∨
    (firstParse examFormatsExcel (pyStrip e) = none ∧
      ∃ y, extractYear4 e = some y ∧ y ≠ 0 ∧ ed = ⟨y, 6, 15⟩)

/-! ### Report assembly (DICOMDoseExtractor) -/

/-- The decoded document object handed to `extract_from_dicom`: header-level
attributes plus the root `ContentSequence`. `Option` fields are the attributes
whose bare existence is tested with `hasattr`; the remaining headers are read
with `str(getattr(ds, ..., ''))` and so are plain strings. -/
structure Dataset where
  modality : Option String := none
  contentSequence : Option (List ContentNode) := none
  patientID : String := ""
  patientName : String := ""
  studyID : String := ""
  accessionNumber : String := ""
  studyDate : String := ""
  studyTime : String := ""
  patientBirthDate : String := ""
  patientSex : String := ""
  institutionName : String := ""
  contentDate : String := ""
  contentTime : String := ""

/-- `EssentialInfo` dataclass. -/
structure EssentialInfo where
  patient_id : String := ""
  patient_name : String := ""
  study_id : String := ""
  accession_number : String := ""
  study_date : String := ""
  birth_date : String := ""
  sex : String := ""
deriving DecidableEq, Repr

/-- `XRaySourceParams` dataclass. -/
structure XRaySourceParams where
  identification : String := ""
  kvp : String := ""
  max_tube_current : String := ""
  tube_current : String := ""
  exposure_time_per_rotation : Option String := none
deriving DecidableEq, Repr

/-- `CTDose` dataclass. -/
structure CTDose where
  mean_ctdivol : String := ""
  phantom_type : String := ""
  dlp : String := ""
  size_specific_dose : Option String := none
  ctdivol_alert_value : Option String := none
deriving DecidableEq, Repr

/-- `CTAcquisitionParams` dataclass. -/
structure CTAcquisitionParams where
  exposure_time : String := ""
  scanning_length : String := ""
  nominal_single_collimation : String := ""
  nominal_total_collimation : String := ""
  num_xray_sources : String := ""
  pitch_factor : Option String := none
deriving DecidableEq, Repr

/-- `CTAcquisition` dataclass. -/
structure CTAcquisition where
  protocol : String := ""
  target_region : String := ""
  acquisition_type : String := ""
  procedure_context : String := ""
  irradiation_event_uid : String := ""
  comment : String := ""
  acquisition_params : Option CTAcquisitionParams := none
  xray_source_params : Option XRaySourceParams := none
  ct_dose : Option CTDose := none
deriving DecidableEq, Repr

/-- `IrradiationInfo` dataclass; all fields default to the `''` missing marker. -/
structure IrradiationInfo where
  start_time : String := ""
  end_time : String := ""
  total_events : String := ""
  total_dlp : String := ""
deriving DecidableEq, Repr

/-- `DeviceInfo` dataclass. -/
structure DeviceInfo where
  observer_name : String := ""
  manufacturer : String := ""
  model_name : String := ""
  serial_number : String := ""
  physical_location : String := ""
deriving DecidableEq, Repr

/-- `CTScanReport` dataclass (after `__post_init__` fills the sub-records). -/
structure CTScanReport where
  hospital : String := ""
  report_date : String := ""
  file_path : String := ""
  essential : EssentialInfo := {}
  device : DeviceInfo := {}
  irradiation : IrradiationInfo := {}
  acquisitions : List CTAcquisition := []
deriving DecidableEq, Repr

/-- The repeated `find + get_text_value` pattern (`item = find(...); if item: ...`
with `''` otherwise). -/
def textOf (cs : List ContentNode) (code : String) : String :=
  match find_content_by_code cs code with
  | some it => get_text_value it
  | none => ""

/-- The repeated `find + get_code_meaning` pattern. -/
def meaningOf (cs : List ContentNode) (code : String) : String :=
  match find_content_by_code cs code with
  | some it => get_code_meaning it
  | none => ""

/-- The repeated `find + get_numeric_value_with_unit` pattern. -/
def numOf (cs : List ContentNode) (code : String) : String :=
  match find_content_by_code cs code with
  | some it => get_numeric_value_with_unit it
  | none => ""

/-- Same as `numOf` but for the `Optional[str]` dataclass fields, which stay
`None` when the code is not found. -/
def numOptOf (cs : List ContentNode) (code : String) : Option String :=
  match find_content_by_code cs code with
  | some it => some (get_numeric_value_with_unit it)
  | none => none

/-- The `format_date` + optional `HH:MM:SS` suffix pattern used for
`study_date` and `report_date`. -/
def dateWithTime (d t : String) : String :=
  if d = "" then ""
  else
    let fd := format_date d
    if t ≠ "" ∧ 6 ≤ t.length then
      fd ++ ", " ++ String.mk (t.toList.take 2) ++ ":" ++
        String.mk ((t.toList.drop 2).take 2) ++ ":" ++
        String.mk ((t.toList.drop 4).take 2)
    else fd

/-- `extract_patient_info(ds)`. -/
def extract_patient_info (ds : Dataset) : EssentialInfo :=
  { patient_id := ds.patientID
    patient_name :=
      if ds.patientName = "" then ""
      else String.mk (pyStripList (ds.patientName.toList.map (fun c => if c = '^' then ' ' else c)))
    study_id := ds.studyID
    accession_number := ds.accessionNumber
    study_date := dateWithTime ds.studyDate ds.studyTime
    birth_date := if ds.patientBirthDate = "" then "" else format_date ds.patientBirthDate
    sex := ds.patientSex }

/-- `extract_device_info(content_sequence)`. -/
def extract_device_info (cs : List ContentNode) : DeviceInfo :=
  { observer_name := textOf cs "121013"
    manufacturer := textOf cs "121014"
    model_name := textOf cs "121015"
    serial_number := textOf cs "121016"
    physical_location := textOf cs "121017" }

/-- `extract_irradiation_info(content_sequence)`: start/end times from the
root-level `113809`/`113810` items; total events and total DLP from inside the
first `113811` "CT Accumulated Dose Data" container (if it has a
`ContentSequence`). -/
def extract_irradiation_info (cs : List ContentNode) : IrradiationInfo :=
  let startTime := match find_content_by_code cs "113809" with
    | some it => get_datetime_value it
    | none => ""
  let endTime := match find_content_by_code cs "113810" with
    | some it => get_datetime_value it
    | none => ""
  match find_content_by_code cs "113811" with
  | some cont =>
    match cont.children with
    | some sub =>
      { start_time := startTime
        end_time := endTime
        total_events := match find_content_by_code sub "113812" with
          | some it => get_numeric_value_with_unit it
          | none => ""
        total_dlp := match find_content_by_code sub "113813" with
          | some it => get_numeric_value_with_unit it
          | none => "" }
    | none => { start_time := startTime, end_time := endTime }
  | none => { start_time := startTime, end_time := endTime }

/-- `extract_acquisition_params(content_sequence)`. -/
def extract_acquisition_params (cs : List ContentNode) : CTAcquisitionParams :=
  { exposure_time := numOf cs "113824"
    scanning_length := numOf cs "113825"
    nominal_single_collimation := numOf cs "113826"
    nominal_total_collimation := numOf cs "113827"
    num_xray_sources := numOf cs "113823"
    pitch_factor := numOptOf cs "113828" }

/-- `extract_xray_source_params(content_sequence)`. -/
def extract_xray_source_params (cs : List ContentNode) : XRaySourceParams :=
  { identification := textOf cs "113832"
    kvp := numOf cs "113733"
    max_tube_current := numOf cs "113833"
    tube_current := numOf cs "113734"
    exposure_time_per_rotation := numOptOf cs "113834" }

/-- `extract_ct_dose(content_sequence)`. -/
def extract_ct_dose (cs : List ContentNode) : CTDose :=
  { mean_ctdivol := numOf cs "113830"
    phantom_type := meaningOf cs "113835"
    dlp := numOf cs "113838"
    size_specific_dose := numOptOf cs "113930"
    ctdivol_alert_value := numOptOf cs "113904" }

/-- The inner loop that finds the first `113831` "X-Ray Source Parameters"
sub-container carrying a `ContentSequence` (items matching the code but lacking
children are passed over, mirroring the conjoined condition). -/
def findXraySub : List ContentNode → Option XRaySourceParams
  | [] => none
  | it :: rest =>
    if nodeMatches it "113831" then
      match it.children with
      | some sub => some (extract_xray_source_params sub)
      | none => findXraySub rest
    else findXraySub rest

/-- One step of the sub-container loop inside `extract_ct_acquisitions`: later
matches overwrite earlier ones; a found `113822` params container that lacks an
X-ray sub-container leaves the previous X-ray value in place. -/
def processAcqSub (acc : Option CTAcquisitionParams × Option XRaySourceParams × Option CTDose)
    (sub : ContentNode) :
    Option CTAcquisitionParams × Option XRaySourceParams × Option CTDose :=
  if nodeMatches sub "113822" then
    match sub.children with
    | some pcs =>
      let xr := match findXraySub pcs with
        | some x => some x
        | none => acc.2.1
      (some (extract_acquisition_params pcs), xr, acc.2.2)
    | none => acc
  else if nodeMatches sub "113829" then
    match sub.children with
    | some dcs => (acc.1, acc.2.1, some (extract_ct_dose dcs))
    | none => acc
  else acc

/-- Building one `CTAcquisition` from a root-level `113819` container. -/
def buildAcquisition (it : ContentNode) : CTAcquisition :=
  match it.children with
  | none => {}
  | some acq =>
    let sub := acq.foldl processAcqSub (none, none, none)
    { protocol := textOf acq "125203"
      target_region := meaningOf acq "123014"
      acquisition_type := meaningOf acq "113820"
      procedure_context := meaningOf acq "G-C32C"
      irradiation_event_uid := match find_content_by_code acq "113769" with
        | some u => u.uid.getD ""
        | none => ""
      comment := textOf acq "121106"
      acquisition_params := sub.1
      xray_source_params := sub.2.1
      ct_dose := sub.2.2 }

/-- `extract_ct_acquisitions(content_sequence)`: one record per root-level
`113819` container, in encounter order. -/
def extract_ct_acquisitions (cs : List ContentNode) : List CTAcquisition :=
  cs.foldl (fun acqs it =>
    if nodeMatches it "113819" then acqs ++ [buildAcquisition it] else acqs) []

/-- `extract_from_dicom(dicom_path)` after `pydicom.dcmread` has produced `ds`:
`None` for a structurally invalid document (`Modality` absent or not `'SR'`, or
no `ContentSequence`), otherwise the assembled `CTScanReport`. -/
def extract_from_dicom (dicomPath : String) (ds : Dataset) : Option CTScanReport :=
  if ds.modality = some "SR" then
    match ds.contentSequence with
    | some cs =>
      some { file_path := dicomPath
             essential := extract_patient_info ds
             hospital := ds.institutionName
             report_date := dateWithTime ds.contentDate ds.contentTime
             device := extract_device_info cs
             irradiation := extract_irradiation_info cs
             acquisitions := extract_ct_acquisitions cs }
    | none => none
  else none

/-! ### Concrete example trees used by the claim witnesses and counterexamples -/

/-- A NUM content item with the given concept code and numeric value string. -/
def mkNumNode (code v : String) : ContentNode :=
  .mk [⟨code, ""⟩] [] none none none [⟨some v, []⟩] none

/-- Samples 80, 90, 100 under the kVp code. -/
def csEx : List ContentNode :=
  [mkNumNode "113733" "80", mkNumNode "113733" "90", mkNumNode "113733" "100"]

/-- A zero-valued sample followed by a 90-valued sample under the kVp code. -/
def csZero : List ContentNode :=
  [mkNumNode "113733" "0", mkNumNode "113733" "90"]

/-- A NUM item whose measured value is 0 mGy (numeric payload and unit both
present, value zero). -/
def zeroUnitNode : ContentNode :=
  .mk [] [] none none none [⟨some "0", [⟨"mGy", "mGy"⟩]⟩] none

/-- A NUM item with value 0.0 and no unit, under the kVp code. -/
def zeroNode2 : ContentNode :=
  .mk [⟨"113733", ""⟩] [] none none none [⟨some "0.0", []⟩] none

/-- A content item whose `TextValue` attribute is absent. -/
def absentTextNode : ContentNode := .mk [] [] none none none [] none

/-- A content item whose `TextValue` attribute is present but the empty string. -/
def emptyTextNode : ContentNode := .mk [] [] (some "") none none [] none

/-- A root-level `113809` "Start of X-Ray Irradiation" item with a datetime,
and no accumulated-dose container anywhere. -/
def startOnlyNode : ContentNode :=
  .mk [⟨"113809", ""⟩] [] none none (some "20240101120000") [] none

/-- A node with a concept name code, used by the locator witness. -/
def c9node : ContentNode := .mk [⟨"X", ""⟩] [] none none none [] none

/-- A structurally valid SR document with an empty content tree. -/
def srEmptyDataset : Dataset := { modality := some "SR", contentSequence := some [] }

/-- A CT (non-SR) document with a content tree. -/
def ctDataset : Dataset := { modality := some "CT", contentSequence := some [] }

/-! ## Helper lemmas -/

/-- The sample the aggregator loop derives through
`float(get_numeric_value_only(item))` coincides with
`get_numeric_value_as_float`. -/
theorem parsedSample_eq_as_float (it : ContentNode) :
    parsedSample it = get_numeric_value_as_float it := by
  obtain ⟨cnc, cc, tv, u, dt, mvs, ch⟩ := it
  cases mvs with
  | nil => rfl
  | cons mv rest =>
    obtain ⟨nv, units⟩ := mv
    cases nv with
    | none => rfl
    | some s =>
      cases hpf : pyFloat s with
      | none =>
        simp [parsedSample, get_numeric_value_only, get_numeric_value_as_float,
          ContentNode.measuredValues, hpf]
      | some q =>
        by_cases hq : q = 0
        · subst hq
          simp [parsedSample, get_numeric_value_only, get_numeric_value_as_float,
            ContentNode.measuredValues, hpf]
        · have hs : s ≠ "" := by
            intro h
            subst h
            have hnone : pyFloat "" = none := by decide
            rw [hnone] at hpf
            cases hpf
          simp [parsedSample, get_numeric_value_only, get_numeric_value_as_float,
            ContentNode.measuredValues, hpf, hq, hs]

/-- `get_numeric_value_as_float` never produces zero (truthiness drops it). -/
theorem as_float_ne_zero (it : ContentNode) (q : ℚ)
    (h : get_numeric_value_as_float it = some q) : q ≠ 0 := by
  obtain ⟨cnc, cc, tv, u, dt, mvs, ch⟩ := it
  cases mvs with
  | nil => cases h
  | cons mv rest =>
    obtain ⟨nv, units⟩ := mv
    cases nv with
    | none => cases h
    | some s =>
      cases hpf : pyFloat s with
      | none =>
        simp [get_numeric_value_as_float, ContentNode.measuredValues, hpf] at h
      | some q2 =>
        by_cases hq2 : q2 = 0
        · simp [get_numeric_value_as_float, ContentNode.measuredValues, hpf, hq2] at h
        · simp [get_numeric_value_as_float, ContentNode.measuredValues, hpf, hq2] at h
          subst h
          exact hq2

/-- The `values` list built by the aggregator loop is exactly the matching
samples in encounter order. -/
theorem collectValues_eq_matchingSamples (cs : List ContentNode) (code : String) :
    collectValues cs code = matchingSamples cs code := by
  induction cs with
  | nil => rfl
  | cons it rest ih =>
    simp only [collectValues, matchingSamples, List.filterMap_cons]
    rw [parsedSample_eq_as_float]
    by_cases h : nodeMatches it code
    · simp only [h, if_true]
      cases hq : get_numeric_value_as_float it with
      | none => simpa [matchingSamples] using ih
      | some q => simpa [matchingSamples] using ih
    · simp only [h, Bool.false_eq_true, if_false]
      simpa [matchingSamples] using ih

/-- `find_content_by_code` is `List.find?` of the concept-code predicate. -/
theorem find_content_eq_find? (cs : List ContentNode) (code : String) :
    find_content_by_code cs code = cs.find? (fun it => nodeMatches it code) := by
  induction cs with
  | nil => rfl
  | cons it rest ih =>
    by_cases h : nodeMatches it code
    · simp [find_content_by_code, List.find?_cons_of_pos, h]
    · simp [find_content_by_code, List.find?_cons_of_neg, h, ih]

/-- When no child matches, the locator returns the missing marker. -/
theorem find_content_eq_none (cs : List ContentNode) (code : String)
    (h : ∀ n ∈ cs, nodeMatches n code = false) :
    find_content_by_code cs code = none := by
  induction cs with
  | nil => rfl
  | cons it rest ih =>
    have h1 := h it (by simp)
    simp only [find_content_by_code, h1, Bool.false_eq_true, if_false]
    exact ih (fun n hn => h n (by simp [hn]))

/-- The kernel-evaluable addition is the standard one. -/
theorem ratAddR_eq (a b : ℚ) : ratAddR a b = a + b :=
  (Rat.add_def' a b).symm

/-- The kernel-evaluable sum is the left fold of the standard `+`. -/
theorem listSum_eq (l : List ℚ) : listSum l = l.foldl (· + ·) 0 := by
  unfold listSum
  have h : ratAddR = (· + ·) := funext fun a => funext fun b => ratAddR_eq a b
  rw [h]

/-- The kernel-evaluable division by a count is the standard `/`. -/
theorem ratDivNat_eq (q : ℚ) (n : ℕ) : ratDivNat q n = q / (n : ℚ) := by
  rw [ratDivNat, Rat.mkRat_eq_div]
  push_cast
  rw [← div_div, Rat.num_div_den]

/-- `pyRound3` in the standard field operations. -/
theorem pyRound3_eq (q : ℚ) : pyRound3 q = (roundHalfEven (q * 1000) : ℚ) / 1000 := by
  have h : mkRat (q.num * 1000) q.den = q * 1000 := by
    rw [Rat.mkRat_eq_div]
    push_cast
    conv_rhs => rw [← Rat.num_div_den q]
    rw [div_mul_eq_mul_div]
  rw [pyRound3, h, Rat.mkRat_eq_div]
  norm_num

/-! ## Claim C1 -/

/-- Claim C1 (counterexample to the claim as stated): the aggregator does not
collect every parseable numeric value of every matching item — a zero-valued
sample is parseable as a number yet is dropped, so `[0, 90]` yields count 1,
not 2. -/
theorem c1_counterexample :
    aggregate_multiple_values csZero "113733" = ⟨some 90, some 90, some 90, 1⟩ ∧
    nodeMatches (mkNumNode "113733" "0") "113733" = true ∧
    pyFloat "0" = some 0 := by decide

/-- Claim C1 (amended): for every node list and target code the aggregator
collects every matching item's nonzero parseable numeric value (not only the
first match; zero-valued and unparsable entries are discarded), and returns
min, max and mean rounded to three decimal places together with the sample
count; with no such sample it returns min, max and mean all `None` and count 0,
never a computed zero. -/
theorem c1_aggregate_amended (cs : List ContentNode) (code : String) :
    collectValues cs code = matchingSamples cs code ∧
    (matchingSamples cs code = [] →
      aggregate_multiple_values cs code = ⟨none, none, none, 0⟩) ∧
    (∀ x r, matchingSamples cs code = x :: r →
      aggregate_multiple_values cs code =
        ⟨some (pyRound3 (listMin x r)), some (pyRound3 (listMax x r)),
         some (pyRound3 (ratDivNat (listSum (x :: r)) (x :: r).length)),
         (x :: r).length⟩) := by
  refine ⟨collectValues_eq_matchingSamples cs code, ?_, ?_⟩
  · intro h
    unfold aggregate_multiple_values
    rw [collectValues_eq_matchingSamples, h]
  · intro x r h
    unfold aggregate_multiple_values
    rw [collectValues_eq_matchingSamples, h]

/-- Witness for C1: samples `[80, 90, 100]` under one code give
`{min: 80, max: 100, avg: 90, count: 3}`. -/
theorem c1_aggregate_amended_witness :
    aggregate_multiple_values csEx "113733" = ⟨some 80, some 100, some 90, 3⟩ := by
  have h := (c1_aggregate_amended csEx "113733").2.2 80 [90, 100] (by decide)
  rw [h]
  decide

/-! ## Claim C9 -/

/-- Claim C9: `find_content_by_code` scans the direct children in order and
returns the first child whose concept code equals the target (it is
`List.find?` of the code predicate); a child lacking a concept code never
matches and is skipped; no match gives `none`; and any returned node is a
member of the direct child list — the scan never descends into a child's own
children. -/
theorem c9_find_first_semantics (cs : List ContentNode) (code : String) :
    find_content_by_code cs code = cs.find? (fun it => nodeMatches it code) ∧
    (∀ n : ContentNode, n.conceptNameCodes = [] → nodeMatches n code = false) ∧
    (∀ n, find_content_by_code cs code = some n → n ∈ cs) := by
  refine ⟨find_content_eq_find? cs code, ?_, ?_⟩
  · intro n h
    simp [nodeMatches, h]
  · intro n h
    rw [find_content_eq_find? cs code] at h
    exact List.mem_of_find?_eq_some h

/-- Witness for C9 at a concrete singleton child list. -/
theorem c9_find_first_semantics_witness : c9node ∈ [c9node] :=
  (c9_find_first_semantics [c9node] "X").2.2 c9node rfl

/-! ## Claim C10 -/

/-- Claim C10: a node whose measured-value sequence is present but whose
numeric value parses to zero makes all three numeric extractors return the
missing marker, exactly as a node with no measured value at all does; hence
the aggregator's collected sample list never contains zero, so zero-valued
samples are excluded from min, max, mean and count. -/
theorem c10_zero_value_missing :
    (∀ (it : ContentNode) (mv : MeasuredValue) rest s,
      it.measuredValues = mv :: rest → mv.numericValue = some s → pyFloat s = some 0 →
      get_numeric_value_with_unit it = "" ∧ get_numeric_value_only it = "" ∧
      get_numeric_value_as_float it = none) ∧
    (∀ it : ContentNode, it.measuredValues = [] →
      get_numeric_value_with_unit it = "" ∧ get_numeric_value_only it = "" ∧
      get_numeric_value_as_float it = none) ∧
    (∀ cs code, (0 : ℚ) ∉ collectValues cs code) := by
  refine ⟨?_, ?_, ?_⟩
  · intro it mv rest s hmv hnv hpf
    refine ⟨?_, ?_, ?_⟩ <;>
      simp [get_numeric_value_with_unit, get_numeric_value_only,
        get_numeric_value_as_float, hmv, hnv, hpf]
  · intro it h
    refine ⟨?_, ?_, ?_⟩ <;>
      simp [get_numeric_value_with_unit, get_numeric_value_only,
        get_numeric_value_as_float, h]
  · intro cs code
    induction cs with
    | nil => simp [collectValues]
    | cons it rest ih =>
      by_cases h : nodeMatches it code
      · cases hq : parsedSample it with
        | none => simpa [collectValues, h, hq] using ih
        | some q =>
          have hq0 : q ≠ 0 := by
            rw [parsedSample_eq_as_float] at hq
            exact as_float_ne_zero it q hq
          simp [collectValues, h, hq, List.mem_cons, ih, Ne.symm hq0]
      · simpa [collectValues, h] using ih

/-- Witness for C10 at a concrete zero-valued node. -/
theorem c10_zero_value_missing_witness :
    get_numeric_value_only zeroNode2 = "" ∧
    get_numeric_value_as_float zeroNode2 = none ∧
    (0 : ℚ) ∉ collectValues [zeroNode2] "113733" := by
  have h := c10_zero_value_missing.1 zeroNode2 ⟨some "0.0", []⟩ [] "0.0" rfl rfl (by decide)
  exact ⟨h.2.1, h.2.2, c10_zero_value_missing.2.2 [zeroNode2] "113733"⟩

/-! ## Claim C4 -/

/-- Claim C4 (counterexample to the claim as stated): a malformed (too short)
date string is not passed through unchanged — `format_date` replaces it with
the empty string. -/
theorem c4_counterexample :
    format_date "1234" = "" ∧ format_date "1234" ≠ "1234" := by decide

/-- Claim C4 (amended): `format_date` never fails, but the degraded fallback is
two-tiered: an input shorter than 8 characters yields the empty string (not the
input); an input of length at least 8 whose month slice parses as an integer
indexing the month table and whose day slice parses as an integer is rendered
as `"<table month> <day>, <year>"` (for a well-formed DICOM date with month
01–12 this is exactly `"Mon D, YYYY"`); any other input of length at least 8
passes through unchanged. -/
theorem c4_format_date_amended :
    (∀ s : String, s.length < 8 → format_date s = "") ∧
    (∀ s : String, 8 ≤ s.length →
      ∀ m monthName d, pyInt (dateSliceMonth s) = some m →
        listIndexPy monthsTable m = some monthName →
        pyInt (dateSliceDay s) = some d →
        format_date s = monthName ++ " " ++ toString d ++ ", " ++ dateSliceYear s) ∧
    (∀ s : String, 8 ≤ s.length → pyInt (dateSliceMonth s) = none → format_date s = s) ∧
    (∀ s : String, 8 ≤ s.length → ∀ m, pyInt (dateSliceMonth s) = some m →
      listIndexPy monthsTable m = none → format_date s = s) ∧
    (∀ s : String, 8 ≤ s.length → ∀ m monthName, pyInt (dateSliceMonth s) = some m →
      listIndexPy monthsTable m = some monthName → pyInt (dateSliceDay s) = none →
      format_date s = s) := by
  have hcond : ∀ s : String, 8 ≤ s.length → ¬(s = "" ∨ s.length < 8) := by
    intro s hlen h
    rcases h with rfl | hlt
    · exact absurd hlen (by decide)
    · omega
  refine ⟨?_, ?_, ?_, ?_, ?_⟩
  · intro s h
    unfold format_date
    rw [if_pos (Or.inr h)]
  · intro s hlen m monthName d hm hidx hd
    unfold format_date
    rw [if_neg (hcond s hlen)]
    simp only [hm, hidx, hd]
  · intro s hlen hm
    unfold format_date
    rw [if_neg (hcond s hlen)]
    simp only [hm]
  · intro s hlen m hm hidx
    unfold format_date
    rw [if_neg (hcond s hlen)]
    simp only [hm, hidx]
  · intro s hlen m monthName hm hidx hd
    unfold format_date
    rw [if_neg (hcond s hlen)]
    simp only [hm, hidx, hd]

/-- Witness for C4 exercising all three behaviours. -/
theorem c4_format_date_amended_witness :
    format_date "123" = "" ∧ format_date "19800615" = "Jun 15, 1980" ∧
    format_date "ABCDEFGH" = "ABCDEFGH" := by
  refine ⟨c4_format_date_amended.1 "123" (by decide), ?_,
    c4_format_date_amended.2.2.1 "ABCDEFGH" (by decide) (by decide)⟩
  have h := c4_format_date_amended.2.1 "19800615" (by decide) 6 "Jun" 15
    (by decide) (by decide) (by decide)
  rw [h]
  decide

/-! ## Claim C5 -/

/-- Claim C5 (counterexample to the claim as stated): a node whose measured
value carries both a numeric value (zero) and a unit does not yield the
composed `"value unit"` string — the zero value is falsy and the extractor
returns the missing marker. -/
theorem c5_counterexample :
    get_numeric_value_with_unit zeroUnitNode = "" ∧
    get_numeric_value_with_unit zeroUnitNode ≠ "0 mGy" ∧
    (zeroUnitNode.measuredValues.headD ⟨none, []⟩).numericValue = some "0" ∧
    unitOf (zeroUnitNode.measuredValues.headD ⟨none, []⟩) = "mGy" := by decide

/-- Claim C5 (amended): the numeric-with-unit extractor is total and returns
the composed `"value unit"` string when a nonzero parseable numeric value and a
nonempty unit meaning are present, the bare numeric value string when the unit
is absent or empty, and the missing marker `""` when the measured-value
sequence is empty or the numeric attribute is absent (and also when the value
is zero or unparsable, per C10). -/
theorem c5_numeric_with_unit_amended :
    (∀ (it : ContentNode) (mv : MeasuredValue) rest s q,
      it.measuredValues = mv :: rest → mv.numericValue = some s →
      pyFloat s = some q → q ≠ 0 → unitOf mv ≠ "" →
      get_numeric_value_with_unit it = s ++ " " ++ unitOf mv) ∧
    (∀ (it : ContentNode) (mv : MeasuredValue) rest s q,
      it.measuredValues = mv :: rest → mv.numericValue = some s →
      pyFloat s = some q → q ≠ 0 → unitOf mv = "" →
      get_numeric_value_with_unit it = s) ∧
    (∀ it : ContentNode, it.measuredValues = [] →
      get_numeric_value_with_unit it = "" ∧ get_numeric_value_only it = "") ∧
    (∀ (it : ContentNode) (mv : MeasuredValue) rest,
      it.measuredValues = mv :: rest → mv.numericValue = none →
      get_numeric_value_with_unit it = "" ∧ get_numeric_value_only it = "") := by
  refine ⟨?_, ?_, ?_, ?_⟩
  · intro it mv rest s q hmv hnv hpf hq hu
    simp [get_numeric_value_with_unit, hmv, hnv, hpf, hq, hu]
  · intro it mv rest s q hmv hnv hpf hq hu
    simp [get_numeric_value_with_unit, hmv, hnv, hpf, hq, hu]
  · intro it h
    constructor <;> simp [get_numeric_value_with_unit, get_numeric_value_only, h]
  · intro it mv rest hmv hnv
    constructor <;> simp [get_numeric_value_with_unit, get_numeric_value_only, hmv, hnv]

/-- Witness for C5: `27 mGy` composed display, bare value without a unit, and
missing marker on an empty measured-value sequence. -/
theorem c5_numeric_with_unit_amended_witness :
    get_numeric_value_with_unit
      (ContentNode.mk [] [] none none none [⟨some "27", [⟨"mGy", "mGy"⟩]⟩] none) = "27 mGy" ∧
    get_numeric_value_with_unit
      (ContentNode.mk [] [] none none none [⟨some "27", []⟩] none) = "27" ∧
    get_numeric_value_with_unit (ContentNode.mk [] [] none none none [] none) = "" := by
  refine ⟨?_, ?_,
    (c5_numeric_with_unit_amended.2.2.1 (ContentNode.mk [] [] none none none [] none) rfl).1⟩
  · exact c5_numeric_with_unit_amended.1 _ ⟨some "27", [⟨"mGy", "mGy"⟩]⟩ [] "27" 27
      rfl rfl (by decide) (by decide) (by decide)
  · exact c5_numeric_with_unit_amended.2.1 _ ⟨some "27", []⟩ [] "27" 27
      rfl rfl (by decide) (by decide) (by decide)

/-! ## Claim C6 -/

/-- Claim C6 (counterexample to the claim as stated): the missing marker for an
absent text field is the empty string itself, so it is not distinct from a
legitimately empty string — a node with no `TextValue` attribute and a node
with an empty `TextValue` are indistinguishable in the assembled record. -/
theorem c6_counterexample :
    get_text_value absentTextNode = get_text_value emptyTextNode ∧
    get_text_value absentTextNode = "" ∧
    absentTextNode.textValue = none ∧ emptyTextNode.textValue = some "" := by decide

/-- Claim C6 (amended): an absent text field is represented by the empty string
(which coincides with a legitimately empty text value), and absent numeric
aggregates are represented by `None` with count 0 — a count-0 aggregate always
carries `None` statistics, never a computed zero, so "no data" is
distinguishable from "value is zero" for aggregates but not for text fields. -/
theorem c6_missing_marker_amended :
    (∀ it : ContentNode, it.textValue = none → get_text_value it = "") ∧
    (∀ cs code, (aggregate_multiple_values cs code).count = 0 →
      aggregate_multiple_values cs code = ⟨none, none, none, 0⟩) := by
  constructor
  · intro it h
    simp [get_text_value, h]
  · intro cs code h
    unfold aggregate_multiple_values at h ⊢
    cases hc : collectValues cs code with
    | nil => rfl
    | cons x r =>
      rw [hc] at h
      simp at h

/-- Witness for C6. -/
theorem c6_missing_marker_amended_witness :
    get_text_value absentTextNode = "" ∧
    aggregate_multiple_values [] "113733" = ⟨none, none, none, 0⟩ := by
  exact ⟨c6_missing_marker_amended.1 absentTextNode rfl,
    c6_missing_marker_amended.2 [] "113733" (by decide)⟩

/-! ## Claim C7 -/

/-- Claim C7: a structurally invalid document (`Modality` absent or not `SR`,
or no content tree) makes whole-document extraction return `None` with no
partial fields, while a structurally valid document always yields an assembled
report — per-field failures are absorbed into missing markers and never
propagate (in particular an empty content tree yields a report whose tree-drawn
sub-records are all at their missing defaults). -/
theorem c7_structural_validity :
    (∀ (p : String) (ds : Dataset),
      ds.modality ≠ some "SR" ∨ ds.contentSequence = none →
      extract_from_dicom p ds = none) ∧
    (∀ (p : String) (ds : Dataset) cs,
      ds.modality = some "SR" → ds.contentSequence = some cs →
      ∃ r, extract_from_dicom p ds = some r) ∧
    (∀ (p : String) (ds : Dataset),
      ds.modality = some "SR" → ds.contentSequence = some [] →
      extract_from_dicom p ds =
        some { file_path := p
               essential := extract_patient_info ds
               hospital := ds.institutionName
               report_date := dateWithTime ds.contentDate ds.contentTime
               device := {}
               irradiation := {}
               acquisitions := [] }) := by
  refine ⟨?_, ?_, ?_⟩
  · intro p ds h
    unfold extract_from_dicom
    rcases h with h | h
    · rw [if_neg h]
    · by_cases hm : ds.modality = some "SR"
      · rw [if_pos hm, h]
      · rw [if_neg hm]
  · intro p ds cs hm hcs
    unfold extract_from_dicom
    rw [if_pos hm, hcs]
    exact ⟨_, rfl⟩
  · intro p ds hm hcs
    unfold extract_from_dicom
    rw [if_pos hm, hcs]
    rfl

/-- Witness for C7: a CT-modality document is rejected whole; an SR document
with an empty tree extracts successfully. -/
theorem c7_structural_validity_witness :
    extract_from_dicom "file.dcm" ctDataset = none ∧
    (∃ r, extract_from_dicom "file.dcm" srEmptyDataset = some r) :=
  ⟨c7_structural_validity.1 "file.dcm" ctDataset (Or.inl (by decide)),
   c7_structural_validity.2.1 "file.dcm" srEmptyDataset [] rfl rfl⟩

/-! ## Claim C8 -/

/-- Claim C8 (counterexample to the claim as stated): a tree with no
accumulated-dose container can still populate `IrradiationInfo.start_time`,
because the start/end irradiation times are read from root-level items
independent of the `113811` container. -/
theorem c8_counterexample :
    (extract_irradiation_info [startOnlyNode]).start_time = "2024-01-01 12:00:00" ∧
    (extract_irradiation_info [startOnlyNode]).start_time ≠ "" ∧
    (∀ n ∈ [startOnlyNode], nodeMatches n "113811" = false) := by decide

/-- Claim C8 (amended): when the root-level content tree contains no
accumulated-dose container (`113811`), the total event count and total
accumulated dose are the missing marker and extraction does not raise; the
start and end times are independent root-level fields (`113809`/`113810`):
they are the missing marker whenever those items are absent, and can be the
missing marker even when such an item is present but carries no `DateTime`
payload. -/
theorem c8_irradiation_amended (cs : List ContentNode)
    (h : ∀ n ∈ cs, nodeMatches n "113811" = false) :
    (extract_irradiation_info cs).total_events = "" ∧
    (extract_irradiation_info cs).total_dlp = "" ∧
    ((∀ n ∈ cs, nodeMatches n "113809" = false) →
      (extract_irradiation_info cs).start_time = "") ∧
    ((∀ n ∈ cs, nodeMatches n "113810" = false) →
      (extract_irradiation_info cs).end_time = "") ∧
    (∀ n, find_content_by_code cs "113809" = some n → n.dateTime = none →
      (extract_irradiation_info cs).start_time = "") := by
  have h811 := find_content_eq_none cs "113811" h
  refine ⟨?_, ?_, ?_, ?_, ?_⟩
  · unfold extract_irradiation_info
    rw [h811]
  · unfold extract_irradiation_info
    rw [h811]
  · intro h9
    unfold extract_irradiation_info
    rw [h811, find_content_eq_none cs "113809" h9]
  · intro h0
    unfold extract_irradiation_info
    rw [h811, find_content_eq_none cs "113810" h0]
  · intro n hf hdt
    unfold extract_irradiation_info
    rw [h811, hf]
    simp [get_datetime_value, hdt, format_datetime]

/-- Witness for C8 on a tree with no accumulated-dose container and no
start/end items. -/
theorem c8_irradiation_amended_witness :
    extract_irradiation_info [ContentNode.mk [⟨"121106", ""⟩] [] none none none [] none] =
      ⟨"", "", "", ""⟩ := by
  have h := c8_irradiation_amended [ContentNode.mk [⟨"121106", ""⟩] [] none none none [] none]
    (by decide)
  have h1 := h.1
  have h2 := h.2.1
  have h3 := h.2.2.1 (by decide)
  have h4 := h.2.2.2.1 (by decide)
  cases he : extract_irradiation_info [ContentNode.mk [⟨"121106", ""⟩] [] none none none [] none]
  rw [he] at h1 h2 h3 h4
  simp only at h1 h2 h3 h4
  rw [h1, h2, h3, h4]

/-! ## Claim C2 -/

/-- Claim C2: for every pair of birth and exam date strings that each parse
against one of the accepted display formats, both age calculators return
`exam.year - birth.year`, decremented by one exactly when the exam's
(month, day) pair is lexicographically strictly below the birth's
(the `ageOf` adjustment). -/
theorem c2_age_parsed_dates (b e : String) (bd ed : PDate)
    (hb : firstParse dateFormats (pyStrip b) = some bd)
    (he : firstParse examFormats (pyStrip e) = some ed)
    (he2 : firstParse examFormatsExcel (pyStrip e) = some ed) :
    calculate_age b e = AgeResult.age (ageOf bd ed) ∧
    calculate_age_excel b e = AgeResult.age (ageOf bd ed) := by
  have hbne : b ≠ "" := by
    intro h
    subst h
    rw [(by decide : pyStrip "" = "")] at hb
    rw [(by decide : firstParse dateFormats "" = none)] at hb
    cases hb
  have hene : e ≠ "" := by
    intro h
    subst h
    rw [(by decide : pyStrip "" = "")] at he
    rw [(by decide : firstParse examFormats "" = none)] at he
    cases he
  constructor
  · simp only [calculate_age, resolveBirth, resolveExam, hb, he, if_neg hbne, if_neg hene]
  · simp only [calculate_age_excel, excelExamStage, hb, he2, if_neg hbne, if_neg hene]

/-- Witness for C2: "Jan 1, 1980" to "Jun 15, 2024" gives 44;
"Dec 31, 1980" to "Jan 1, 2024" gives 43 (birthday not yet reached). -/
theorem c2_age_parsed_dates_witness :
    calculate_age "Jan 1, 1980" "Jun 15, 2024" = AgeResult.age 44 ∧
    calculate_age "Dec 31, 1980" "Jan 1, 2024" = AgeResult.age 43 ∧
    calculate_age_excel "Jan 1, 1980" "Jun 15, 2024" = AgeResult.age 44 := by
  have h1 := c2_age_parsed_dates "Jan 1, 1980" "Jun 15, 2024" ⟨1980, 1, 1⟩ ⟨2024, 6, 15⟩
    (by decide) (by decide) (by decide)
  have h2 := c2_age_parsed_dates "Dec 31, 1980" "Jan 1, 2024" ⟨1980, 12, 31⟩ ⟨2024, 1, 1⟩
    (by decide) (by decide) (by decide)
  exact ⟨h1.1.trans (by decide), h2.1.trans (by decide), h1.2.trans (by decide)⟩

/-! ## Claim C3 -/

/-- Claim C3 (counterexample to the claim as stated): for birth string "0000"
(format parsing fails and the 4-digit-year pattern recovers year 0) the claimed
January-1 fallback would give age `2024 - 0 = 2024`, but the calculator returns
the `'-'` marker: `datetime(0, 1, 1)` raises inside the swallowing `except`. -/
theorem c3_counterexample :
    calculate_age "0000" "2024" = AgeResult.unknown ∧
    calculate_age "0000" "2024" ≠ AgeResult.age 2024 ∧
    firstParse dateFormats (pyStrip "0000") = none ∧
    extractYear4 "0000" = some 0 ∧
    extractYear4 "2024" = some 2024 := by decide

/-- Claim C3 (amended): the age calculator is total; the fallback is
per-string: each of the two strings independently resolves either by format
parsing or — when format parsing fails — to the first 4-digit year in the
string, birth mapped to January 1 and exam to June 15 of that year, provided
the extracted year is a valid calendar year (nonzero); the age is then the
usual year difference with the birthday adjustment. When the extracted year is
0000 the internal date construction fails and the result is the `'-'` marker;
when no year can be recovered for either string the result is the `'-'`
marker, never zero and never an exception. Both calculator variants satisfy
the success path and the no-year `'-'` paths. -/
theorem c3_year_fallback_amended :
    (∀ b e bd ed, birthResolvesTo b bd → examResolvesTo e ed →
      calculate_age b e = AgeResult.age (ageOf bd ed)) ∧
    (∀ b e, firstParse dateFormats (pyStrip b) = none → extractYear4 b = none →
      calculate_age b e = AgeResult.unknown) ∧
    (∀ b e, firstParse examFormats (pyStrip e) = none → extractYear4 e = none →
      calculate_age b e = AgeResult.unknown) ∧
    (∀ b e bd ed, birthResolvesTo b bd → examResolvesToExcel e ed →
      calculate_age_excel b e = AgeResult.age (ageOf bd ed)) ∧
    (∀ b e, firstParse dateFormats (pyStrip b) = none → extractYear4 b = none →
      calculate_age_excel b e = AgeResult.unknown) ∧
    (∀ b e, firstParse examFormatsExcel (pyStrip e) = none → extractYear4 e = none →
      calculate_age_excel b e = AgeResult.unknown) := by
  have hy_ne : ∀ b : String, ∀ yb, extractYear4 b = some yb → b ≠ "" := by
    intro b yb hyb h
    subst h
    rw [(by decide : extractYear4 "" = none)] at hyb
    cases hyb
  have hbr_ne : ∀ (b : String) (bd : PDate), birthResolvesTo b bd → b ≠ "" := by
    intro b bd hb h
    subst h
    rcases hb with hp | ⟨_, y, hy, _, _⟩
    · rw [(by decide : pyStrip "" = "")] at hp
      rw [(by decide : firstParse dateFormats "" = none)] at hp
      cases hp
    · rw [(by decide : extractYear4 "" = none)] at hy
      cases hy
  have her_ne : ∀ (e : String) (ed : PDate), examResolvesTo e ed → e ≠ "" := by
    intro e ed he h
    subst h
    rcases he with hp | ⟨_, y, hy, _, _⟩
    · rw [(by decide : pyStrip "" = "")] at hp
      rw [(by decide : firstParse examFormats "" = none)] at hp
      cases hp
    · rw [(by decide : extractYear4 "" = none)] at hy
      cases hy
  have herx_ne : ∀ (e : String) (ed : PDate), examResolvesToExcel e ed → e ≠ "" := by
    intro e ed he h
    subst h
    rcases he with hp | ⟨_, y, hy, _, _⟩
    · rw [(by decide : pyStrip "" = "")] at hp
      rw [(by decide : firstParse examFormatsExcel "" = none)] at hp
      cases hp
    · rw [(by decide : extractYear4 "" = none)] at hy
      cases hy
  refine ⟨?_, ?_, ?_, ?_, ?_, ?_⟩
  · intro b e bd ed hb he
    have hb' := hbr_ne b bd hb
    have he' := her_ne e ed he
    rcases hb with hbp | ⟨hbn, y, hy, hy0, rfl⟩ <;>
      rcases he with hep | ⟨hen, z, hz, hz0, rfl⟩
    · simp only [calculate_age, resolveBirth, resolveExam, hbp, hep,
        if_neg hb', if_neg he']
    · simp only [calculate_age, resolveBirth, resolveExam, hbp, hen, hz,
        if_neg hb', if_neg he', if_neg hz0]
    · simp only [calculate_age, resolveBirth, resolveExam, hbn, hy, hep,
        if_neg hb', if_neg he', if_neg hy0]
    · simp only [calculate_age, resolveBirth, resolveExam, hbn, hy, hen, hz,
        if_neg hb', if_neg he', if_neg hy0, if_neg hz0]
  · intro b e hpb hyb
    by_cases hb : b = ""
    · simp [calculate_age, hb]
    · by_cases he : e = ""
      · simp [calculate_age, hb, he]
      · simp only [calculate_age, resolveBirth, hpb, hyb, if_neg hb, if_neg he]
        cases hre : resolveExam e with
        | none => rfl
        | some oe => cases oe <;> rfl
  · intro b e hpe hye
    by_cases hb : b = ""
    · simp [calculate_age, hb]
    · by_cases he : e = ""
      · simp [calculate_age, hb, he]
      · simp only [calculate_age, resolveExam, hpe, hye, if_neg hb, if_neg he]
        cases hrb : resolveBirth b with
        | none => rfl
        | some ob => cases ob <;> rfl
  · intro b e bd ed hb he
    have hb' := hbr_ne b bd hb
    have he' := herx_ne e ed he
    rcases hb with hbp | ⟨hbn, y, hy, hy0, rfl⟩ <;>
      rcases he with hep | ⟨hen, z, hz, hz0, rfl⟩
    · simp only [calculate_age_excel, excelExamStage, hbp, hep,
        if_neg hb', if_neg he']
    · simp only [calculate_age_excel, excelExamStage, hbp, hen, hz,
        if_neg hb', if_neg he', if_neg hz0]
    · simp only [calculate_age_excel, excelExamStage, hbn, hy, hep,
        if_neg hb', if_neg he', if_neg hy0]
    · simp only [calculate_age_excel, excelExamStage, hbn, hy, hen, hz,
        if_neg hb', if_neg he', if_neg hy0, if_neg hz0]
  · intro b e hpb hyb
    by_cases hb : b = ""
    · simp [calculate_age_excel, hb]
    · by_cases he : e = ""
      · simp [calculate_age_excel, hb, he]
      · simp only [calculate_age_excel, hpb, hyb, if_neg hb, if_neg he]
  · intro b e hpe hye
    by_cases hb : b = ""
    · simp [calculate_age_excel, hb]
    · by_cases he : e = ""
      · simp [calculate_age_excel, hb, he]
      · have hstage : ∀ bd, excelExamStage bd b e = AgeResult.unknown := by
          intro bd
          simp only [excelExamStage, hpe, hye]
        have hyfb : excelYearFallback b e = AgeResult.unknown := by
          unfold excelYearFallback
          rw [hye]
          cases extractYear4 b <;> rfl
        simp only [calculate_age_excel, if_neg hb, if_neg he]
        cases hfb : firstParse dateFormats (pyStrip b) with
        | some bd => exact hstage bd
        | none =>
          cases hyb : extractYear4 b with
          | none => rfl
          | some y =>
            by_cases hy0 : y = 0
            · simp only [if_pos hy0]
              exact hyfb
            · simp only [if_neg hy0]
              exact hstage ⟨y, 1, 1⟩

/-- Witness for C3: birth "1980" with exam "2024" gives 44 via the
January-1 / June-15 defaults, in both calculators; the mixed case — parsed
birth "Jan 1, 1980" with year-fallback exam "2024" — also gives 44; and
strings with no recoverable year give the `'-'` marker. -/
theorem c3_year_fallback_amended_witness :
    calculate_age "1980" "2024" = AgeResult.age 44 ∧
    calculate_age "Jan 1, 1980" "2024" = AgeResult.age 44 ∧
    calculate_age_excel "1980" "2024" = AgeResult.age 44 ∧
    calculate_age_excel "abc" "xyz" = AgeResult.unknown := by
  have h1 := c3_year_fallback_amended.1 "1980" "2024" ⟨1980, 1, 1⟩ ⟨2024, 6, 15⟩
    (Or.inr ⟨by decide, 1980, by decide, by decide, rfl⟩)
    (Or.inr ⟨by decide, 2024, by decide, by decide, rfl⟩)
  have h2 := c3_year_fallback_amended.1 "Jan 1, 1980" "2024" ⟨1980, 1, 1⟩ ⟨2024, 6, 15⟩
    (Or.inl (by decide))
    (Or.inr ⟨by decide, 2024, by decide, by decide, rfl⟩)
  have h3 := c3_year_fallback_amended.2.2.2.1 "1980" "2024" ⟨1980, 1, 1⟩ ⟨2024, 6, 15⟩
    (Or.inr ⟨by decide, 1980, by decide, by decide, rfl⟩)
    (Or.inr ⟨by decide, 2024, by decide, by decide, rfl⟩)
  have h4 := c3_year_fallback_amended.2.2.2.2.1 "abc" "xyz" (by decide) (by decide)
  exact ⟨h1.trans (by decide), h2.trans (by decide), h3.trans (by decide), h4⟩
